import Mathlib

/-! Verification of the GitHub repository scraper (`github_scraper.py`).

Python strings are modelled as lists of Unicode characters (`PyStr`).
The network boundary (the `requests.get` calls) is modelled by oracle
functions passed as arguments: a page oracle for the repository listing,
a per-filename oracle for the README fetch, and an optional language
mapping for the language fetch.  Everything else is translated directly
from the source.
-/

namespace GithubScraper

/-- Python strings, as lists of characters. -/
abbrev PyStr := List Char

/-- Turns a Lean string literal into a `PyStr`. -/
def pys (s : String) : PyStr := s.data

/-- Python `str.lower()`, character-wise case folding. -/
def pyLower (s : PyStr) : PyStr := s.map Char.toLower

/-- Python substring test `needle in hay`. -/
def pyIn (needle hay : PyStr) : Bool := decide (needle <:+: hay)

/-- The backquote character, written by code point to keep it out of the
source text of this file. -/
def backquote : Char := Char.ofNat 96

/-! ## Lister: `get_all_repositories` (lines 32-65) -/

/-- Response of one repository-page request: an HTTP error (status code
other than 200), or a decoded JSON page of repositories. -/
inductive PageResp (α : Type) where
  | error : PageResp α
  | ok : List α → PageResp α
deriving DecidableEq

/-- Observable outcome of `get_all_repositories`: the repositories
returned, the page numbers requested (in order), and whether the error
branch printed a message. -/
structure ListerResult (α : Type) where
  repos : List α
  requested : List Nat
  errorLogged : Bool
deriving DecidableEq

/-- The `while True` pagination loop of `get_all_repositories`
(lines 38-63).  `fuel` bounds the number of iterations; it is an artifact
of the embedding (the source loop runs until an empty page or an error),
and every theorem below supplies enough fuel for the run it describes. -/
def listerLoop (api : Nat → PageResp α) : Nat → Nat → List α → List Nat → ListerResult α
  | 0, _, acc, req => ⟨acc, req, false⟩
  | fuel + 1, page, acc, req =>
    match api page with
    | .error => ⟨acc, req ++ [page], true⟩
    | .ok pageRepos =>
      if pageRepos.isEmpty then ⟨acc, req ++ [page], false⟩
      else listerLoop api fuel (page + 1) (acc ++ pageRepos) (req ++ [page])

/-- `get_all_repositories`: runs the pagination loop from page 1 with an
empty accumulator (lines 34-36). -/
def get_all_repositories (api : Nat → PageResp α) (fuel : Nat) : ListerResult α :=
  listerLoop api fuel 1 [] []

/-! ## Enricher: `get_readme_content` (lines 67-89) -/

/-- Outcome of one `contents/<file>` request, with the base64 handling of
lines 75-85 folded in: `failure` is a non-200 status or a 200 response
whose `encoding` field is not `"base64"`; `decodeError` is a 200 base64
response whose decoding raises (the `except: continue` branch);
`content s` is a successfully decoded README text. -/
inductive ContentResp where
  | failure : ContentResp
  | decodeError : ContentResp
  | content : PyStr → ContentResp

/-- The candidate README filenames, in the order the code tries them
(line 69). -/
def readme_files : List PyStr :=
  [pys "README.md", pys "README.rst", pys "README.txt", pys "README"]

/-- The whitespace characters removed by Python `str.strip()` (the ASCII
ones; the scraper's claims do not depend on the non-ASCII cases). -/
def pyWhitespace : List Char := [' ', '\t', '\n', '\r', '\x0b', '\x0c']

/-- Python `str.strip()`: drop whitespace from both ends. -/
def pyStrip (s : PyStr) : PyStr :=
  ((s.dropWhile (pyWhitespace.contains ·)).reverse.dropWhile (pyWhitespace.contains ·)).reverse

/-- `re.sub` applied with the newline-run pattern at line 81: each maximal
run of newline characters becomes a single space. -/
def collapseNewlines : PyStr → PyStr
  | [] => []
  | c :: rest =>
    if c = '\n' then ' ' :: collapseNewlines (rest.dropWhile (· == '\n'))
    else c :: collapseNewlines rest
termination_by s => s.length
decreasing_by
  · exact Nat.lt_succ_of_le ((List.dropWhile_sublist _).length_le)
  · exact Nat.lt_succ_self _

/-- The cleanup applied to a decoded README (lines 81-83): collapse
newline runs, delete the three markdown marker characters, strip, and
keep the first 500 characters. -/
def cleanReadme (s : PyStr) : PyStr :=
  (pyStrip ((collapseNewlines s).filter
    (fun c => !(c == '#' || c == '*' || c == backquote)))).take 500

/-- The `for readme_file in readme_files` loop of `get_readme_content`
(lines 71-87): the first successfully decoded candidate is cleaned and
returned, every other outcome moves on to the next candidate. -/
def readmeLoop (fetch : PyStr → ContentResp) : List PyStr → PyStr
  | [] => pys "No README found"
  | f :: rest =>
    match fetch f with
    | .content s => cleanReadme s
    | _ => readmeLoop fetch rest

/-- `get_readme_content`, driven by an oracle mapping each candidate
filename to the outcome of its HTTP request. -/
def get_readme_content (fetch : PyStr → ContentResp) : PyStr :=
  readmeLoop fetch readme_files

/-! ## Enricher: `get_languages` (lines 91-100) -/

/-- `get_languages`: `none` models a non-200 status, `some ks` models the
keys of the JSON language mapping in API order.  An empty mapping is
falsy in Python, hence the `isEmpty` test (line 98). -/
def get_languages (resp : Option (List PyStr)) : PyStr :=
  match resp with
  | some languages =>
    if languages.isEmpty then pys "Not specified"
    else List.intercalate (pys ", ") languages
  | none => pys "Not specified"

/-! ## Classifier: `categorize_repo` (lines 102-139) -/

/-- The fields of a repository JSON object that the script reads.  The
JSON field `private` is a Lean keyword and is named `is_private` here. -/
structure RepoData where
  name : PyStr
  description : Option PyStr
  html_url : PyStr
  clone_url : PyStr
  ssh_url : PyStr
  homepage : Option PyStr
  language : Option PyStr
  stargazers_count : Nat
  forks_count : Nat
  watchers_count : Nat
  size : Nat
  created_at : PyStr
  updated_at : PyStr
  pushed_at : Option PyStr
  is_private : Bool
  fork : Bool
  archived : Bool
  has_issues : Bool
  has_wiki : Bool
  has_pages : Bool
  open_issues_count : Nat
  default_branch : PyStr
  topics : List PyStr

/-- The language keywords of the Web Development rule (line 112). -/
def webLangs : List PyStr :=
  [pys "javascript", pys "typescript", pys "html", pys "css"]

/-- The language keywords of the Mobile Development rule (line 116). -/
def mobileLangs : List PyStr := [pys "swift", pys "kotlin", pys "dart"]

/-- The text keywords of the Data Science/ML rule (line 121). -/
def dataKeywords : List PyStr :=
  [pys "data", pys "machine learning", pys "ml", pys "ai", pys "analysis",
   pys "visualization", pys "pandas", pys "numpy"]

/-- The text keywords of the API/Backend rule (line 126). -/
def apiKeywords : List PyStr :=
  [pys "api", pys "backend", pys "server", pys "database", pys "microservice"]

/-- The text keywords of the Tools/Utilities rule (line 131). -/
def toolsKeywords : List PyStr :=
  [pys "tool", pys "utility", pys "script", pys "automation", pys "cli"]

/-- The text keywords of the Learning/Tutorial rule (line 136). -/
def learningKeywords : List PyStr :=
  [pys "tutorial", pys "learning", pys "practice", pys "example",
   pys "demo", pys "course"]

/-- One language rule: `any(lang in languages.lower() for lang in ...)`. -/
def langMatch (kws : List PyStr) (languages : PyStr) : Bool :=
  kws.any (fun lang => pyIn lang (pyLower languages))

/-- One text rule: `any(keyword in f"{name} {description} {readme_lower}"
for keyword in ...)`. -/
def textMatch (kws : List PyStr) (blob : PyStr) : Bool :=
  kws.any (fun keyword => pyIn keyword blob)

/-- The concatenated text blob `f"{name} {description} {readme_lower}"`
built from the lowered fields of lines 104-106. -/
def blobOf (repo : RepoData) (readme_content : PyStr) : PyStr :=
  pyLower repo.name ++ pys " " ++ pyLower (repo.description.getD (pys "")) ++
    pys " " ++ pyLower readme_content

/-- The `categories` list of `categorize_repo`: the sequential
`categories.append` calls of lines 109-137 are modelled as the
concatenation of conditional singleton lists, in the same order. -/
def categoriesOf (repo : RepoData) (readme_content languages : PyStr) : List PyStr :=
  (if langMatch webLangs languages then [pys "Web Development"] else []) ++
  (if langMatch mobileLangs languages then [pys "Mobile Development"] else []) ++
  (if textMatch dataKeywords (blobOf repo readme_content) then [pys "Data Science/ML"] else []) ++
  (if textMatch apiKeywords (blobOf repo readme_content) then [pys "API/Backend"] else []) ++
  (if textMatch toolsKeywords (blobOf repo readme_content) then [pys "Tools/Utilities"] else []) ++
  (if textMatch learningKeywords (blobOf repo readme_content) then [pys "Learning/Tutorial"] else [])

/-- `categorize_repo` (line 139): the semicolon-joined category list, or
"Other" when no rule fired. -/
def categorize_repo (repo_data : RepoData) (readme_content languages : PyStr) : PyStr :=
  let categories := categoriesOf repo_data readme_content languages
  if categories.isEmpty then pys "Other" else List.intercalate (pys "; ") categories

/-! ## Writer: `scrape_to_csv` (lines 141-211) -/

/-- One CSV data row, with the fields of the `row_data` dictionary
(lines 176-203). -/
structure OutputRow where
  name : PyStr
  description : PyStr
  readme_content : PyStr
  url : PyStr
  clone_url : PyStr
  ssh_url : PyStr
  homepage : PyStr
  language : PyStr
  languages_used : PyStr
  stars : Nat
  forks : Nat
  watchers : Nat
  size_kb : Nat
  created_at : PyStr
  updated_at : PyStr
  pushed_at : PyStr
  is_private : Bool
  is_fork : Bool
  is_archived : Bool
  has_issues : Bool
  has_wiki : Bool
  has_pages : Bool
  open_issues_count : Nat
  default_branch : PyStr
  category : PyStr
  topics : PyStr

/-- The 26 CSV header column names (`fieldnames`, lines 153-159). -/
def fieldnames : List PyStr :=
  [pys "name", pys "description", pys "readme_content", pys "url",
   pys "clone_url", pys "ssh_url", pys "homepage", pys "language",
   pys "languages_used", pys "stars", pys "forks", pys "watchers",
   pys "size_kb", pys "created_at", pys "updated_at", pys "pushed_at",
   pys "is_private", pys "is_fork", pys "is_archived", pys "has_issues",
   pys "has_wiki", pys "has_pages", pys "open_issues_count",
   pys "default_branch", pys "category", pys "topics"]

/-- The `row_data` dictionary built for one repository (lines 169-203);
the README and language HTTP calls are supplied as oracles keyed by
repository name. -/
def row_data (readmeOf languagesOf : PyStr → PyStr) (repo : RepoData) : OutputRow :=
  let readme_content := readmeOf repo.name
  let languages_used := languagesOf repo.name
  let category := categorize_repo repo readme_content languages_used
  { name := repo.name
    description := repo.description.getD (pys "")
    readme_content := readme_content
    url := repo.html_url
    clone_url := repo.clone_url
    ssh_url := repo.ssh_url
    homepage := repo.homepage.getD (pys "")
    language := repo.language.getD (pys "")
    languages_used := languages_used
    stars := repo.stargazers_count
    forks := repo.forks_count
    watchers := repo.watchers_count
    size_kb := repo.size
    created_at := repo.created_at
    updated_at := repo.updated_at
    pushed_at := repo.pushed_at.getD (pys "")
    is_private := repo.is_private
    is_fork := repo.fork
    is_archived := repo.archived
    has_issues := repo.has_issues
    has_wiki := repo.has_wiki
    has_pages := repo.has_pages
    open_issues_count := repo.open_issues_count
    default_branch := repo.default_branch
    category := category
    topics := List.intercalate (pys ", ") repo.topics }

/-- The CSV file produced by `scrape_to_csv`: the header row written by
`writeheader` followed by the data rows. -/
structure CsvFile where
  header : List PyStr
  rows : List OutputRow

/-- The writer loop of lines 165-208: each iteration appends one row to
the file (`writer.writerow`), so the file is built by append only. -/
def writeRows (readmeOf languagesOf : PyStr → PyStr) (repos : List RepoData) : List OutputRow :=
  repos.foldl (fun written repo => written ++ [row_data readmeOf languagesOf repo]) []

/-- `scrape_to_csv`: returns `none` when the repository list is empty
(the code prints a message and returns before opening the file,
lines 146-148). -/
def scrape_to_csv (readmeOf languagesOf : PyStr → PyStr) (repos : List RepoData) : Option CsvFile :=
  if repos.isEmpty then none
  else some { header := fieldnames, rows := writeRows readmeOf languagesOf repos }

/-! ## Concrete test fixtures -/

/-- A repository record with the given name and description and default
values everywhere else. -/
def testRepo (name : PyStr) (description : Option PyStr) : RepoData where
  name := name
  description := description
  html_url := pys ""
  clone_url := pys ""
  ssh_url := pys ""
  homepage := none
  language := none
  stargazers_count := 0
  forks_count := 0
  watchers_count := 0
  size := 0
  created_at := pys ""
  updated_at := pys ""
  pushed_at := none
  is_private := false
  fork := false
  archived := false
  has_issues := false
  has_wiki := false
  has_pages := false
  open_issues_count := 0
  default_branch := pys ""
  topics := []

/-- The page oracle of the three-page pagination scenario: pages 1 and 2
hold 100 repositories, page 3 holds 37, and every later page is empty. -/
def threePageApi : Nat → PageResp Unit := fun page =>
  if page ≤ 2 then PageResp.ok (List.replicate 100 ())
  else if page = 3 then PageResp.ok (List.replicate 37 ())
  else PageResp.ok []

/-- A page oracle whose page 1 holds one repository and whose page 2
fails with a non-success status. -/
def okThenErrorApi : Nat → PageResp Unit := fun page =>
  if page = 1 then PageResp.ok [()] else PageResp.error

/-! ## Theorems -/

set_option maxRecDepth 4000 in
/-- C1 (counterexample).  With pages of sizes 100, 100 and 37 the Lister
does return exactly 237 repositories, but it detects the end of the
listing only by fetching the empty fourth page: a request for page 4 is
issued, contrary to the claim. -/
theorem lister_three_pages_requests_fourth_page :
    (get_all_repositories threePageApi 10).repos.length = 237 ∧
    4 ∈ (get_all_repositories threePageApi 10).requested := by decide

set_option maxRecDepth 4000 in
/-- C1 (amended).  When the Lister receives successive pages of sizes
100, 100 and 37 followed by an empty page, it returns a list of exactly
237 repositories and stops after the empty fourth page; exactly four
page requests are issued. -/
theorem lister_three_pages_returns_237 :
    (get_all_repositories threePageApi 10).repos.length = 237 ∧
    (get_all_repositories threePageApi 10).requested = [1, 2, 3, 4] := by decide

/-- One iteration of the pagination loop on an error page: log, stop,
and return the accumulator. -/
lemma listerLoop_error_step (api : Nat → PageResp α) (fuel page : Nat)
    (acc : List α) (req : List Nat) (h : api page = PageResp.error) :
    listerLoop api (fuel + 1) page acc req = ⟨acc, req ++ [page], true⟩ := by
  simp only [listerLoop, h]

/-- One iteration of the pagination loop on a successful non-empty page:
extend the accumulator and move to the next page. -/
lemma listerLoop_ok_step (api : Nat → PageResp α) (fuel page : Nat)
    (acc : List α) (req : List Nat) (p : List α)
    (h : api page = PageResp.ok p) (hne : p ≠ []) :
    listerLoop api (fuel + 1) page acc req =
      listerLoop api fuel (page + 1) (acc ++ p) (req ++ [page]) := by
  simp only [listerLoop, h]
  rw [if_neg (by simpa [List.isEmpty_iff] using hne)]

/-- Running the pagination loop from page `start` over the successful
non-empty pages `P` followed by an error page: the loop requests exactly
the pages `start, ..., start + P.length`, appends every page to the
accumulator, logs the error and stops. -/
lemma listerLoop_run (api : Nat → PageResp α) (P : List (List α)) :
    ∀ (start : Nat) (acc : List α) (req : List Nat),
      (∀ p ∈ P, p ≠ []) →
      (∀ i, i < P.length → api (start + i) = PageResp.ok (P.getD i [])) →
      api (start + P.length) = PageResp.error →
      listerLoop api (P.length + 1) start acc req =
        ⟨acc ++ P.flatten, req ++ List.range' start (P.length + 1), true⟩ := by
  induction P with
  | nil =>
    intro start acc req _ _ herr
    simp only [List.length_nil, Nat.add_zero] at herr
    show listerLoop api (0 + 1) start acc req = _
    rw [listerLoop_error_step api 0 start acc req herr]
    simp
  | cons p P' ih =>
    intro start acc req hne hok herr
    have h0 : api start = PageResp.ok p := by simpa using hok 0 (by simp)
    have hpne : p ≠ [] := hne p (by simp)
    show listerLoop api (P'.length + 1 + 1) start acc req = _
    rw [listerLoop_ok_step api (P'.length + 1) start acc req p h0 hpne]
    rw [ih (start + 1) (acc ++ p) (req ++ [start])
      (fun q hq => hne q (by simp [hq]))
      (fun i hi => by
        have := hok (i + 1) (by simpa using Nat.succ_lt_succ hi)
        simpa [Nat.add_assoc, Nat.add_comm 1 i] using this)
      (by
        have : start + 1 + P'.length = start + (P'.length + 1) := by omega
        rw [this]
        simpa using herr)]
    simp [List.append_assoc, List.range'_succ]

/-- C8.  If the API responds with a non-success status at the page after
the successful pages `P`, the Lister logs the error, terminates the
listing loop, and returns the repositories accumulated from the earlier
pages (the pagination loop is a total function, so no exception can
propagate). -/
theorem get_all_repositories_error_keeps_partial (api : Nat → PageResp α)
    (P : List (List α)) (hne : ∀ p ∈ P, p ≠ [])
    (hok : ∀ i, i < P.length → api (1 + i) = PageResp.ok (P.getD i []))
    (herr : api (1 + P.length) = PageResp.error) :
    get_all_repositories api (P.length + 1) =
      ⟨P.flatten, List.range' 1 (P.length + 1), true⟩ := by
  unfold get_all_repositories
  simpa using listerLoop_run api P 1 [] [] hne hok herr

/-- C8 (witness): one successful page of one repository, then an error;
the single repository is kept, pages 1 and 2 were requested, and the
error was logged. -/
theorem get_all_repositories_error_keeps_partial_w :
    get_all_repositories okThenErrorApi 2 =
      ⟨List.flatten [[()]], List.range' 1 2, true⟩ :=
  get_all_repositories_error_keeps_partial okThenErrorApi [[()]]
    (by decide) (by decide) (by decide)

/-- Folding row appends over a list produces the accumulator followed by
the mapped rows. -/
lemma foldl_append_singleton_eq_map {α β : Type} (f : α → β) (l : List α) :
    ∀ acc : List β, l.foldl (fun w a => w ++ [f a]) acc = acc ++ l.map f := by
  induction l with
  | nil => intro acc; simp
  | cons x xs ih => intro acc; simp [ih]

/-- The writer loop writes exactly the row of each repository, in
listing order. -/
lemma writeRows_eq_map (readmeOf languagesOf : PyStr → PyStr) (repos : List RepoData) :
    writeRows readmeOf languagesOf repos = repos.map (row_data readmeOf languagesOf) := by
  unfold writeRows
  simpa using foldl_append_singleton_eq_map (row_data readmeOf languagesOf) repos []

/-- C2.  For every non-empty repository list, the Writer produces the
header plus exactly one data row per repository, in listing order; and
the rows written for a list are a prefix of the rows written for any
extension of that list, so a row, once written, is never modified or
removed. -/
theorem scrape_to_csv_row_count (readmeOf languagesOf : PyStr → PyStr)
    (repos : List RepoData) (h : repos ≠ []) :
    scrape_to_csv readmeOf languagesOf repos =
      some ⟨fieldnames, repos.map (row_data readmeOf languagesOf)⟩ ∧
    (repos.map (row_data readmeOf languagesOf)).length = repos.length ∧
    ∀ pre suf : List RepoData,
      writeRows readmeOf languagesOf pre <+:
        writeRows readmeOf languagesOf (pre ++ suf) := by
  refine ⟨?_, by simp, fun pre suf => ?_⟩
  · unfold scrape_to_csv
    rw [if_neg (by simpa [List.isEmpty_iff] using h), writeRows_eq_map]
  · rw [writeRows_eq_map, writeRows_eq_map, List.map_append]
    exact List.prefix_append _ _

/-- C2 (witness): the theorem applied to a one-repository list with
constant enrichment oracles. -/
theorem scrape_to_csv_row_count_w :
    ([testRepo (pys "sample") none] ≠ ([] : List RepoData)) ∧
    scrape_to_csv (fun _ => pys "No README found") (fun _ => pys "Not specified")
        [testRepo (pys "sample") none] =
      some ⟨fieldnames,
        [testRepo (pys "sample") none].map
          (row_data (fun _ => pys "No README found") (fun _ => pys "Not specified"))⟩ :=
  ⟨by simp,
    (scrape_to_csv_row_count (fun _ => pys "No README found")
      (fun _ => pys "Not specified") [testRepo (pys "sample") none] (by simp)).1⟩

/-- Every character of a stripped string occurs in the string. -/
lemma mem_of_mem_pyStrip {c : Char} {s : PyStr} (h : c ∈ pyStrip s) : c ∈ s := by
  unfold pyStrip at h
  rw [List.mem_reverse] at h
  have h1 := (List.dropWhile_sublist _).subset h
  rw [List.mem_reverse] at h1
  exact (List.dropWhile_sublist _).subset h1

/-- Characters of a cleaned README are never markdown markers. -/
lemma mem_cleanReadme {c : Char} {s : PyStr} (h : c ∈ cleanReadme s) :
    c ≠ '#' ∧ c ≠ '*' ∧ c ≠ backquote := by
  unfold cleanReadme at h
  have h1 := List.take_subset _ _ h
  have h2 := mem_of_mem_pyStrip h1
  have h3 := (List.mem_filter.mp h2).2
  simp only [Bool.not_eq_eq_eq_not, Bool.not_true, Bool.or_eq_false_iff,
    beq_eq_false_iff_ne, ne_eq] at h3
  exact ⟨h3.1.1, h3.1.2, h3.2⟩

/-- A cleaned README has at most 500 characters. -/
lemma cleanReadme_length_le (s : PyStr) : (cleanReadme s).length ≤ 500 := by
  unfold cleanReadme
  exact List.length_take_le _ _

/-- The README loop returns either the sentinel or a cleaned README, so
its result is always short and marker-free. -/
lemma readmeLoop_excerpt (fetch : PyStr → ContentResp) (fs : List PyStr) :
    (readmeLoop fetch fs).length ≤ 500 ∧
    ∀ c ∈ readmeLoop fetch fs, c ≠ '#' ∧ c ≠ '*' ∧ c ≠ backquote := by
  induction fs with
  | nil =>
    refine ⟨?_, ?_⟩
    · show (pys "No README found").length ≤ 500
      decide
    · show ∀ c ∈ pys "No README found", c ≠ '#' ∧ c ≠ '*' ∧ c ≠ backquote
      decide
  | cons f rest ih =>
    cases hf : fetch f with
    | content s =>
      refine ⟨?_, ?_⟩
      · simpa [readmeLoop, hf] using cleanReadme_length_le s
      · intro c hc
        rw [show readmeLoop fetch (f :: rest) = cleanReadme s by
          simp [readmeLoop, hf]] at hc
        exact mem_cleanReadme hc
    | failure => simpa [readmeLoop, hf] using ih
    | decodeError => simpa [readmeLoop, hf] using ih

/-- C3.  For every fetch oracle, the README excerpt has length at most
500 and contains none of the characters removed as markdown markers. -/
theorem get_readme_content_excerpt_bounds (fetch : PyStr → ContentResp) :
    (get_readme_content fetch).length ≤ 500 ∧
    ∀ c ∈ get_readme_content fetch, c ≠ '#' ∧ c ≠ '*' ∧ c ≠ backquote :=
  readmeLoop_excerpt fetch readme_files

/-- C3 (witness): the theorem applied to an oracle with no README. -/
theorem get_readme_content_excerpt_bounds_w :
    (get_readme_content (fun _ => ContentResp.failure)).length ≤ 500 ∧
    ∀ c ∈ get_readme_content (fun _ => ContentResp.failure),
      c ≠ '#' ∧ c ≠ '*' ∧ c ≠ backquote :=
  get_readme_content_excerpt_bounds (fun _ => ContentResp.failure)

/-- When no remaining candidate is a decodable success, the README loop
falls through to the sentinel. -/
lemma readmeLoop_all_fail (fetch : PyStr → ContentResp) (fs : List PyStr)
    (h : ∀ f ∈ fs, ∀ s, fetch f ≠ ContentResp.content s) :
    readmeLoop fetch fs = pys "No README found" := by
  induction fs with
  | nil => rfl
  | cons f rest ih =>
    cases hf : fetch f with
    | content s => exact absurd hf (h f (by simp) s)
    | failure =>
      simp only [readmeLoop, hf]
      exact ih (fun g hg => h g (by simp [hg]))
    | decodeError =>
      simp only [readmeLoop, hf]
      exact ih (fun g hg => h g (by simp [hg]))

/-- C4.  If no candidate filename yields a successful decodable base64
response, the README fetch returns exactly the sentinel "No README
found"; and a decode failure on one candidate makes the loop continue
with the remaining candidates exactly as if the candidate were absent. -/
theorem get_readme_content_sentinel :
    (∀ fetch : PyStr → ContentResp,
      (∀ f ∈ readme_files, ∀ s, fetch f ≠ ContentResp.content s) →
        get_readme_content fetch = pys "No README found") ∧
    (∀ (fetch : PyStr → ContentResp) (f : PyStr) (rest : List PyStr),
      fetch f = ContentResp.decodeError →
        readmeLoop fetch (f :: rest) = readmeLoop fetch rest) := by
  constructor
  · intro fetch h
    exact readmeLoop_all_fail fetch readme_files h
  · intro fetch f rest h
    simp only [readmeLoop, h]

/-- C4 (witness): the theorem applied to the all-failures oracle and to
a decode-failure head candidate. -/
theorem get_readme_content_sentinel_w :
    get_readme_content (fun _ => ContentResp.failure) = pys "No README found" ∧
    readmeLoop (fun _ => ContentResp.decodeError) (pys "README.md" :: []) =
      readmeLoop (fun _ => ContentResp.decodeError) [] :=
  ⟨get_readme_content_sentinel.1 (fun _ => ContentResp.failure)
      (fun _ _ _ h => ContentResp.noConfusion h),
    get_readme_content_sentinel.2 (fun _ => ContentResp.decodeError)
      (pys "README.md") [] rfl⟩

/-- C5.  The language fetch returns the comma-joined language names in
API order when the mapping is non-empty, and exactly "Not specified"
when the mapping is empty or the request failed. -/
theorem get_languages_join_or_sentinel :
    (∀ languages : List PyStr, languages ≠ [] →
      get_languages (some languages) = List.intercalate (pys ", ") languages) ∧
    get_languages (some []) = pys "Not specified" ∧
    get_languages none = pys "Not specified" := by
  refine ⟨fun languages h => ?_, rfl, rfl⟩
  simp [get_languages, List.isEmpty_iff, h]

/-- C5 (witness): the theorem applied to the one-language mapping. -/
theorem get_languages_join_or_sentinel_w :
    ([pys "Python"] ≠ ([] : List PyStr)) ∧
    get_languages (some [pys "Python"]) = List.intercalate (pys ", ") [pys "Python"] :=
  ⟨by simp, get_languages_join_or_sentinel.1 [pys "Python"] (by simp)⟩

/-- The category labels in the fixed order in which the six rules are
evaluated. -/
def ruleLabels : List PyStr :=
  [pys "Web Development", pys "Mobile Development", pys "Data Science/ML",
   pys "API/Backend", pys "Tools/Utilities", pys "Learning/Tutorial"]

/-- Prepending one conditional label keeps the list a sublist of the
label order extended with that label. -/
lemma cond_cons_sublist (b : Bool) (a : PyStr) {xs L : List PyStr}
    (h : List.Sublist xs L) :
    List.Sublist ((if b then [a] else []) ++ xs) (a :: L) := by
  cases b
  · simpa using h.cons a
  · simpa using h.cons₂ a

/-- A single conditional label is a sublist of the singleton label. -/
lemma cond_singleton_sublist (b : Bool) (a : PyStr) :
    List.Sublist (if b then [a] else []) [a] := by
  cases b <;> simp

/-- The category list is always a sublist of the fixed rule order. -/
lemma categoriesOf_sublist (repo : RepoData) (readme_content languages : PyStr) :
    List.Sublist (categoriesOf repo readme_content languages) ruleLabels := by
  unfold categoriesOf ruleLabels
  simp only [List.append_assoc]
  exact cond_cons_sublist _ _ (cond_cons_sublist _ _ (cond_cons_sublist _ _
    (cond_cons_sublist _ _ (cond_cons_sublist _ _ (cond_singleton_sublist _ _)))))

/-- C6.  The Classifier is a pure function of its four inputs: two runs
on the same inputs give the same string, and the result is the
semicolon-joined form of a sublist of the fixed rule-order label list,
or "Other" when that sublist is empty. -/
theorem categorize_repo_deterministic_ordered (repo : RepoData)
    (readme_content languages : PyStr) :
    categorize_repo repo readme_content languages =
      categorize_repo repo readme_content languages ∧
    ∃ cats : List PyStr, List.Sublist cats ruleLabels ∧
      categorize_repo repo readme_content languages =
        (if cats.isEmpty then pys "Other" else List.intercalate (pys "; ") cats) :=
  ⟨rfl, categoriesOf repo readme_content languages,
    categoriesOf_sublist repo readme_content languages, rfl⟩

/-- C6 (witness): the theorem applied at a concrete repository. -/
theorem categorize_repo_deterministic_ordered_w :
    categorize_repo (testRepo (pys "demo") none) (pys "") (pys "") =
      categorize_repo (testRepo (pys "demo") none) (pys "") (pys "") ∧
    ∃ cats : List PyStr, List.Sublist cats ruleLabels ∧
      categorize_repo (testRepo (pys "demo") none) (pys "") (pys "") =
        (if cats.isEmpty then pys "Other" else List.intercalate (pys "; ") cats) :=
  categorize_repo_deterministic_ordered (testRepo (pys "demo") none) (pys "") (pys "")

/-- C7.  A repository named "ml-tutorial-demo" with description
"pandas-based course", languages "Python" and the sentinel README text is
classified exactly as "Data Science/ML; Learning/Tutorial". -/
theorem categorize_ml_tutorial_demo :
    categorize_repo (testRepo (pys "ml-tutorial-demo") (some (pys "pandas-based course")))
      (pys "No README found") (pys "Python") =
      pys "Data Science/ML; Learning/Tutorial" := by decide

/-- C10.  Keyword matching is plain substring matching: the repository
named "html-page" with empty description, sentinel README text and
languages "Python" is labelled "Data Science/ML" because the keyword
"ml" occurs inside "html". -/
theorem categorize_html_page_substring :
    categorize_repo (testRepo (pys "html-page") (some (pys "")))
      (pys "No README found") (pys "Python") = pys "Data Science/ML" ∧
    pyIn (pys "ml") (pyLower (pys "html-page")) = true := by decide

/-- The lowered README sentinel, as it enters the text blob. -/
def noReadmeLower : PyStr := pys "no readme found"

/-- The single separator space, reduced to a character list. -/
lemma pys_space : pys " " = [' '] := rfl

/-- Lowering the empty string gives the empty list. -/
lemma pyLower_empty : pyLower (pys "") = [] := rfl

/-- Lowering the README sentinel gives the lowered sentinel. -/
lemma pyLower_noReadme : pyLower (pys "No README found") = noReadmeLower := by decide

/-- Any occurrence of `k` inside `a ++ b` lies inside `a`, inside `b`,
or spans the border with a non-empty suffix piece of `a` and a non-empty
prefix piece of `b`. -/
lemma infix_append_cases {α : Type} (k a b : List α) (h : k <:+: a ++ b) :
    k <:+: a ∨ k <:+: b ∨
      ∃ x y, k = x ++ y ∧ x ≠ [] ∧ y ≠ [] ∧ x <:+ a ∧ y <+: b := by
  obtain ⟨s, t, hst⟩ := h
  rw [List.append_assoc] at hst
  rcases List.append_eq_append_iff.mp hst with ⟨w, haw, hkt⟩ | ⟨w, _, hb⟩
  · rcases List.append_eq_append_iff.mp hkt with ⟨u, hwu, _⟩ | ⟨u, hku, hbu⟩
    · exact Or.inl ⟨s, u, by rw [haw, hwu, List.append_assoc]⟩
    · by_cases hw : w = []
      · subst hw
        simp only [List.nil_append] at hku
        exact Or.inr (Or.inl ⟨[], t, by simp [hku, hbu]⟩)
      · by_cases hu : u = []
        · subst hu
          rw [List.append_nil] at hku
          exact Or.inl ⟨s, [], by simp [haw, hku]⟩
        · exact Or.inr (Or.inr ⟨w, u, hku, hw, hu, ⟨s, haw.symm⟩, ⟨t, hbu.symm⟩⟩)
  · exact Or.inr (Or.inl ⟨w, t, by rw [hb, List.append_assoc]⟩)

/-- A non-empty suffix of a list ending in `c` itself ends in `c`. -/
lemma suffix_ends_in {α : Type} {x base : List α} {c : α}
    (h : x <:+ base ++ [c]) (hx : x ≠ []) : ∃ x', x = x' ++ [c] := by
  obtain ⟨t, ht⟩ := h
  refine ⟨x.dropLast, ?_⟩
  have hsplit : x = x.dropLast ++ [x.getLast hx] :=
    (List.dropLast_append_getLast hx).symm
  rw [hsplit] at ht
  rw [← List.append_assoc] at ht
  have hlast := (List.append_inj' ht (by simp)).2
  simp only [List.cons.injEq, and_true] at hlast
  exact hsplit.trans (by rw [hlast])

/-- A non-empty prefix of a list starting with `c` itself starts with `c`. -/
lemma prefix_starts_with {α : Type} {y rest : List α} {c : α}
    (h : y <+: c :: rest) (hy : y ≠ []) : ∃ y', y = c :: y' := by
  cases y with
  | nil => exact absurd rfl hy
  | cons z zs =>
    obtain ⟨t, ht⟩ := h
    have hz : z = c := by simpa using congrArg List.head? ht
    exact ⟨zs, by rw [hz]⟩

/-- A keyword that does not occur in the lowered sentinel and does not
contain a space followed by an `n` occurs in the blob extended by the
sentinel exactly when it occurs in the blob alone.  The blob always ends
with the space separating the description from the README text. -/
lemma infix_sentinel_iff (base k : PyStr)
    (hks : ¬ k <:+: noReadmeLower) (hsp : ¬ [' ', 'n'] <:+: k) :
    k <:+: (base ++ [' ']) ++ noReadmeLower ↔ k <:+: base ++ [' '] := by
  constructor
  · intro h
    rcases infix_append_cases k (base ++ [' ']) noReadmeLower h with
      h1 | h2 | ⟨x, y, hk, hx0, hy0, hxs, hyp⟩
    · exact h1
    · exact absurd h2 hks
    · obtain ⟨x', hx'⟩ := suffix_ends_in hxs hx0
      have hsent : noReadmeLower = 'n' :: pys "o readme found" := rfl
      rw [hsent] at hyp
      obtain ⟨y', hy'⟩ := prefix_starts_with hyp hy0
      exact absurd ⟨x', y', by simp [hk, hx', hy']⟩ hsp
  · intro h
    obtain ⟨s, t, hst⟩ := h
    exact ⟨s, t ++ noReadmeLower, by rw [← List.append_assoc, hst]⟩

/-- The Boolean version of `infix_sentinel_iff`, at the level of the
Python substring test. -/
lemma pyIn_sentinel_eq (base k : PyStr)
    (hks : ¬ k <:+: noReadmeLower) (hsp : ¬ [' ', 'n'] <:+: k) :
    pyIn k ((base ++ [' ']) ++ noReadmeLower) = pyIn k (base ++ [' ']) :=
  decide_eq_decide.mpr (infix_sentinel_iff base k hks hsp)

/-- `List.any` only depends on the value of the predicate on members. -/
lemma any_congr_mem {α : Type} {l : List α} {f g : α → Bool}
    (h : ∀ a ∈ l, f a = g a) : l.any f = l.any g := by
  induction l with
  | nil => rfl
  | cons x xs ih =>
    simp only [List.any_cons, h x (by simp), ih (fun a ha => h a (by simp [ha]))]

/-- Substituting the README sentinel for an empty README excerpt changes
no text rule whose keywords avoid the sentinel and the space-`n` border
pattern. -/
lemma textMatch_sentinel (kws : List PyStr)
    (h : ∀ k ∈ kws, ¬ k <:+: noReadmeLower ∧ ¬ [' ', 'n'] <:+: k)
    (repo : RepoData) :
    textMatch kws (blobOf repo (pys "No README found")) =
      textMatch kws (blobOf repo (pys "")) := by
  have hb2 : blobOf repo (pys "No README found") =
      ((pyLower repo.name ++ [' '] ++ pyLower (repo.description.getD (pys ""))) ++ [' ']) ++
        noReadmeLower := by
    unfold blobOf
    rw [pyLower_noReadme, pys_space]
  have hb1 : blobOf repo (pys "") =
      (pyLower repo.name ++ [' '] ++ pyLower (repo.description.getD (pys ""))) ++ [' '] := by
    unfold blobOf
    rw [pyLower_empty, pys_space, List.append_nil]
  unfold textMatch
  rw [hb1, hb2]
  exact any_congr_mem (fun k hk =>
    pyIn_sentinel_eq _ k (h k hk).1 (h k hk).2)

/-- C9.  Classifying with the README sentinel "No README found" yields
exactly the same category string as classifying with an empty README
excerpt, for every repository and language string: the sentinel text
triggers no keyword rule. -/
theorem categorize_repo_sentinel_neutral (repo : RepoData) (languages : PyStr) :
    categorize_repo repo (pys "No README found") languages =
      categorize_repo repo (pys "") languages := by
  have hc : categoriesOf repo (pys "No README found") languages =
      categoriesOf repo (pys "") languages := by
    unfold categoriesOf
    rw [textMatch_sentinel dataKeywords (by decide) repo,
        textMatch_sentinel apiKeywords (by decide) repo,
        textMatch_sentinel toolsKeywords (by decide) repo,
        textMatch_sentinel learningKeywords (by decide) repo]
  simp only [categorize_repo]
  rw [hc]

end GithubScraper
